import Mathlib

/-!
Verification of the peggy bridge CLI attestation commands
(module/x/peggy/client/cli/attestation_tx.go).

The commands are shallowly embedded as Lean functions. External
collaborators that are out of scope for the source file (the cosmos-sdk
query/broadcast plumbing, ECDSA signing, bech32 decoding, message
basic-validation) are passed in as an explicit `Env` record of functions,
and every observable effect a command performs (chain query, checkpoint
signing, message broadcast) is recorded in an event trace, so that
properties such as "neither signs nor broadcasts" are directly statable.
Machine integers are modelled as `Nat`/`Int` with explicit bounds and
wrap-around where Go converts between widths.
-/

/-! ## Go strconv model -/

/-- A decimal digit character, as tested by Go's strconv lower routine. -/
def isDecDigit (c : Char) : Bool := '0' ≤ c && c ≤ '9'

/-- Value of a big-endian list of decimal digit characters. -/
def digitsToNat (cs : List Char) : Nat :=
  cs.foldl (fun a c => a * 10 + (c.toNat - 48)) 0

/-- Model of Go `strconv.ParseUint(s, 10, bitSize)`: no sign prefix is
permitted, the string must be one or more decimal digits, and the value
must fit in `bitSize` bits. -/
def goParseUint (s : String) (bitSize : Nat) : Except String Nat :=
  let cs := s.data
  if cs.isEmpty then .error "invalid syntax"
  else if cs.all isDecDigit then
    let v := digitsToNat cs
    if v < 2 ^ bitSize then .ok v else .error "value out of range"
  else .error "invalid syntax"

/-- The sign-stripped part of Go `strconv.ParseInt(s, 10, bitSize)`:
`ds` must be one or more decimal digits and the (possibly negated)
value must lie in `[-2^(bitSize-1), 2^(bitSize-1))`. -/
def goParseIntCore (neg : Bool) (ds : List Char) (bitSize : Nat) : Except String Int :=
  if ds.isEmpty then .error "invalid syntax"
  else if ds.all isDecDigit then
    let v : Int := if neg then -(digitsToNat ds : Int) else (digitsToNat ds : Int)
    if -((2 : Int) ^ (bitSize - 1)) ≤ v ∧ v < (2 : Int) ^ (bitSize - 1) then .ok v
    else .error "value out of range"
  else .error "invalid syntax"

/-- Model of Go `strconv.ParseInt(s, 10, bitSize)`: an optional leading
sign followed by one or more decimal digits, the value in
`[-2^(bitSize-1), 2^(bitSize-1))`. -/
def goParseInt (s : String) (bitSize : Nat) : Except String Int :=
  match s.data with
  | [] => .error "invalid syntax"
  | c :: rest =>
    if c = '-' then goParseIntCore true rest bitSize
    else if c = '+' then goParseIntCore false rest bitSize
    else goParseIntCore false (c :: rest) bitSize

/-- Model of the Go conversion `uint64(i)` from `int64`: two's-complement
wrap-around modulo `2^64`. -/
def goUint64OfInt (i : Int) : Nat := (i % (2 : Int) ^ 64).toNat

/-- Model of the Go string slice `s[i:]` on an ASCII string: defined when
`i ≤ len(s)`, a run-time panic (modelled as `none`) otherwise. -/
def goSliceFrom (s : String) (i : Nat) : Option String :=
  if i ≤ s.length then some (s.drop i) else none

/-- Comma splitting on the character list underlying a string; the
result is never empty. -/
def splitCommaChars : List Char → List (List Char)
  | [] => [[]]
  | c :: rest =>
    if c = ',' then [] :: splitCommaChars rest
    else
      match splitCommaChars rest with
      | [] => [[c]]
      | g :: gs => (c :: g) :: gs

/-- Model of Go `strings.Split(s, ",")`: the substrings between commas,
in order; an input without commas yields the one-element list of the
input itself (so the result is never empty). -/
def goSplitComma (s : String) : List String :=
  (splitCommaChars s.data).map List.asString

/-! ## Data model

Value types from `x/peggy/types`. Their Go declarations are not under
the visible source tree; each is modelled from the spec where noted. -/

/-- Ethereum address value type; `types.NewEthereumAddress` wraps the
given string verbatim. -/
structure EthereumAddress where
  raw : String
deriving DecidableEq, Repr

/-- Modelled from the spec: `types.NewEthereumAddress` (not under src/),
the constructor of the Ethereum-address value type. -/
def NewEthereumAddress (s : String) : EthereumAddress := ⟨s⟩

/-- Cosmos account address (bech32-decoded); decoding itself is
cosmos-sdk plumbing, out of scope, so the decoded form stays opaque. -/
structure AccAddress where
  raw : String
deriving DecidableEq, Repr

/-- Modelled from the spec: `types.ERC20Token` (not under src/), a value
type of amount, symbol and token contract address. -/
structure ERC20Token where
  Amount : Nat
  Symbol : String
  TokenContractAddress : EthereumAddress
deriving DecidableEq, Repr

/-- Modelled from the spec: `types.NewERC20Token` (not under src/). -/
def NewERC20Token (amount : Nat) (symbol : String) (contractAddr : EthereumAddress) : ERC20Token :=
  { Amount := amount, Symbol := symbol, TokenContractAddress := contractAddr }

/-- Modelled from the spec: `types.UInt64NonceFromString` (not under
src/) parses a base-10 unsigned 64-bit nonce. -/
def UInt64NonceFromString (s : String) : Except String Nat :=
  goParseUint s 64

/-- Function `parseNonce` from attestation_tx.go. -/
def parseNonce (nonceArg : String) : Except String Nat :=
  UInt64NonceFromString nonceArg

/-- Modelled from the spec: a valset member (Ethereum address, power). -/
structure BridgeValidator where
  EthereumAddress : EthereumAddress
  Power : Nat
deriving DecidableEq, Repr

/-- Modelled from the spec: `types.Valset` (not under src/): nonce,
ordered members, total power. -/
structure Valset where
  Nonce : Nat
  Members : List BridgeValidator
  TotalPower : Nat
deriving DecidableEq, Repr

/-- Modelled from the spec: one outgoing transfer of a batch
(destination, amount, ERC20 token). -/
structure OutgoingTransferTx where
  Destination : EthereumAddress
  Amount : Nat
  Token : ERC20Token
deriving DecidableEq, Repr

/-- Modelled from the spec: `types.OutgoingTxBatch` (not under src/):
batch nonce and ordered transfer list. -/
structure OutgoingTxBatch where
  Nonce : Nat
  Elements : List OutgoingTransferTx
deriving DecidableEq, Repr

/-- Modelled from the spec: `keeper.MultiSigUpdateResponse` (not under
src/), the payload of the `lastObservedMultiSigUpdate` query; the CLI
uses only its `Valset` field. -/
structure MultiSigUpdateResponse where
  Valset : Valset
deriving DecidableEq, Repr

/-- Modelled from the spec: the bridge's peggyID identifier. Where the
checkpoint functions obtain it is not visible under src/; it is a fixed
parameter of the bridge instance, modelled as a constant. -/
def peggyID : String := "peggy"

/-- A checkpoint: the canonical data a validator signs. The spec fixes
its content (a tag string, nonce, and member/transfer arrays in a
documented order); hashing to bytes is a wire-format step external to
the visible source, so the checkpoint is modelled as the tagged tuple of
its inputs, which keeps it a deterministic, injective function of them. -/
inductive Checkpoint where
  | valsetCheckpoint (pid : String) (methodTag : String) (nonce : Nat)
      (memberAddresses : List EthereumAddress) (memberPowers : List Nat)
  | batchCheckpoint (pid : String) (methodTag : String) (nonce : Nat)
      (transfers : List OutgoingTransferTx) (valsetCk : Checkpoint)
deriving DecidableEq, Repr

/-- Modelled from the spec: `Valset.GetCheckpoint` (not under src/), a
deterministic function of (peggyID, "checkpoint" method tag, nonce,
member addresses, member powers). -/
def Valset.GetCheckpoint (v : Valset) : Checkpoint :=
  .valsetCheckpoint peggyID "checkpoint" v.Nonce
    (v.Members.map (·.EthereumAddress)) (v.Members.map (·.Power))

/-- Modelled from the spec: `OutgoingTxBatch.GetCheckpoint` (not under
src/), a deterministic function of (peggyID, "transactionBatch" tag,
batch nonce, transfers, bound valset checkpoint). The Go signature
returns `(checkpoint, error)`, hence the `Except`; the spec gives no
failing case, so the model always succeeds. -/
def OutgoingTxBatch.GetCheckpoint (b : OutgoingTxBatch) (v : Valset) : Except String Checkpoint :=
  .ok (.batchCheckpoint peggyID "transactionBatch" b.Nonce b.Elements v.GetCheckpoint)

/-- An ECDSA private key as produced by `ethCrypto.HexToECDSA`; the
cryptography is external, so the key stays opaque. -/
structure ECDSAKey where
  raw : String
deriving DecidableEq, Repr

/-- An Ethereum ECDSA signature; external cryptography, opaque bytes. -/
structure EthSignature where
  raw : String
deriving DecidableEq, Repr

/-! ## Claim and message types -/

/-- Type `types.EthereumBridgeBootstrappedClaim` as populated by the CLI. -/
structure EthereumBridgeBootstrappedClaim where
  Nonce : Nat
  Block : Nat
  AllowedValidatorSet : List EthereumAddress
  ValidatorPowers : List Nat
  PeggyID : String
  StartThreshold : Nat
deriving DecidableEq, Repr

/-- Type `types.EthereumBridgeDepositClaim` as populated by the CLI. -/
structure EthereumBridgeDepositClaim where
  Nonce : Nat
  ERC20Token : ERC20Token
  EthereumSender : EthereumAddress
  CosmosReceiver : AccAddress
deriving DecidableEq, Repr

/-- Type `types.EthereumBridgeWithdrawalBatchClaim` as populated by the CLI. -/
structure EthereumBridgeWithdrawalBatchClaim where
  Nonce : Nat
deriving DecidableEq, Repr

/-- Type `types.EthereumBridgeMultiSigUpdateClaim` as populated by the CLI. -/
structure EthereumBridgeMultiSigUpdateClaim where
  Nonce : Nat
deriving DecidableEq, Repr

/-- Type `types.EthereumClaim`, the closed tagged union of claim variants. -/
inductive EthereumClaim where
  | bootstrapped (c : EthereumBridgeBootstrappedClaim)
  | deposit (c : EthereumBridgeDepositClaim)
  | withdrawalBatch (c : EthereumBridgeWithdrawalBatchClaim)
  | multiSigUpdate (c : EthereumBridgeMultiSigUpdateClaim)
deriving DecidableEq, Repr

/-- Type `types.MsgCreateEthereumClaims` as populated by the CLI. -/
structure MsgCreateEthereumClaims where
  EthereumChainID : String
  BridgeContractAddress : EthereumAddress
  Orchestrator : AccAddress
  Claims : List EthereumClaim
deriving DecidableEq, Repr

/-- The two claim types attached to CLI signature submissions. -/
inductive ClaimType where
  | OrchestratorSignedMultiSigUpdate
  | OrchestratorSignedWithdrawBatch
deriving DecidableEq, Repr

/-- Type `types.MsgBridgeSignatureSubmission` as populated by the CLI. -/
structure MsgBridgeSignatureSubmission where
  Nonce : Nat
  ClaimType : ClaimType
  Orchestrator : AccAddress
  EthereumSignature : EthSignature
deriving DecidableEq, Repr

/-- The sdk.Msg values a CLI command may broadcast. -/
inductive SdkMsg where
  | createClaims (m : MsgCreateEthereumClaims)
  | bridgeSig (m : MsgBridgeSignatureSubmission)
deriving DecidableEq, Repr

/-! ## Effects and environment -/

/-- One observable effect of a command run: a chain query, a checkpoint
signing (`types.NewEthereumSignature`), or a message broadcast
(`utils.GenerateOrBroadcastMsgs`). -/
inductive Event where
  | queriedValsetRequest (nonce : String)
  | queriedLastObservedMultiSigUpdate
  | queriedBatch (nonce : String)
  | signed (checkpoint : Checkpoint)
  | broadcasted (msgs : List SdkMsg)
deriving DecidableEq, Repr

/-- The external collaborators a command calls, all out of scope for the
visible source file: the CLI context's from-address and queries, bech32
decoding, ECDSA key parsing and signing, message basic-validation, and
broadcast. Each fallible Go call becomes an `Except`-valued function; a
query's empty payload becomes `none`. -/
structure Env where
  fromAddress : AccAddress
  accAddressFromBech32 : String → Except String AccAddress
  hexToECDSA : String → Except String ECDSAKey
  sign : Checkpoint → ECDSAKey → Except String EthSignature
  queryValsetRequest : String → Except String (Option Valset)
  queryLastObservedMultiSigUpdate : Except String (Option MultiSigUpdateResponse)
  queryBatch : String → Except String (Option OutgoingTxBatch)
  validateClaims : MsgCreateEthereumClaims → Except String Unit
  validateSubmission : MsgBridgeSignatureSubmission → Except String Unit
  broadcast : List SdkMsg → Except String Unit

/-- The ways a command run ends when it does not succeed, one per
distinct error-return site of the Go code (where Go returns a bare
`error`, the constructor records which call produced it). `panicked`
marks a Go run-time panic (out-of-range slice). -/
inductive CmdError where
  | parseError (e : String)
  | keyError (e : String)
  | queryError (e : String)
  | notFound
  | checkpointError (e : String)
  | signError (e : String)
  | validationError (e : String)
  | broadcastError (e : String)
  | panicked
deriving DecidableEq, Repr

/-- A command run: the trace of effects it performed, and its return
value (`.ok ()` for a nil Go error). -/
abbrev CmdResult := List Event × Except CmdError Unit

/-- The messages appearing in broadcast events of a trace, in order. -/
def broadcastMsgs (tr : List Event) : List SdkMsg :=
  tr.foldr (fun e acc => match e with | .broadcasted ms => ms ++ acc | _ => acc) []

/-- The checkpoints passed to the signer in a trace, in order. -/
def signedCheckpoints (tr : List Event) : List Checkpoint :=
  tr.foldr (fun e acc => match e with | .signed cp => cp :: acc | _ => acc) []

/-! ## The CLI commands

Each `RunE` body from attestation_tx.go, as a function of the
environment and the (count-checked, per `cobra.ExactArgs`) positional
arguments, in the exact order of the Go statements. -/

/-- The validator-powers loop of `CmdSendETHBootstrapRequest`: the split
parts are `strconv.ParseUint`-parsed one by one, the first error (wrapped
with "power") returned immediately. -/
def parsePowers : List String → Except String (List Nat)
  | [] => .ok []
  | v :: rest =>
    match goParseUint v 64 with
    | .error e => .error ("power: " ++ e)
    | .ok p =>
      match parsePowers rest with
      | .error e => .error e
      | .ok ps => .ok (p :: ps)

/-- Command `CmdSendETHBootstrapRequest` RunE: bootstrap
[eth chain id] [eth contract address] [block] [allowed_validators]
[validator_powers] [peggy_id] [start_threshold]. -/
def CmdSendETHBootstrapRequest (env : Env)
    (a0 a1 a2 a3 a4 a5 a6 : String) : CmdResult :=
  let ethChainID := a0
  let ethContractAddress := a1
  match goParseUint a2 64 with
  | .error e => ([], .error (.parseError e))
  | .ok block =>
    let validators := (goSplitComma a3).map NewEthereumAddress
    match parsePowers (goSplitComma a4) with
    | .error e => ([], .error (.parseError e))
    | .ok powers =>
      match goParseUint a6 64 with
      | .error e => ([], .error (.parseError ("start threshold: " ++ e)))
      | .ok startThreshold =>
        let msg : MsgCreateEthereumClaims :=
          { EthereumChainID := ethChainID
            BridgeContractAddress := NewEthereumAddress ethContractAddress
            Orchestrator := env.fromAddress
            Claims := [.bootstrapped
              { Nonce := 1  -- hard coded in ETH contract
                Block := block
                AllowedValidatorSet := validators
                ValidatorPowers := powers
                PeggyID := a5
                StartThreshold := startThreshold }] }
        match env.validateClaims msg with
        | .error e => ([], .error (.validationError e))
        | .ok _ =>
          match env.broadcast [.createClaims msg] with
          | .error e => ([.broadcasted [.createClaims msg]], .error (.broadcastError e))
          | .ok _ => ([.broadcasted [.createClaims msg]], .ok ())

/-- Command `CmdSendETHDepositRequest` RunE: deposit
[eth chain id] [eth contract address] [nonce] [cosmos receiver] [amount]
[eth erc20 symbol] [eth erc20 contract addr] [eth sender address]. -/
def CmdSendETHDepositRequest (env : Env)
    (a0 a1 a2 a3 a4 a5 a6 a7 : String) : CmdResult :=
  let ethChainID := a0
  let ethContractAddress := a1
  match parseNonce a2 with
  | .error e => ([], .error (.parseError e))
  | .ok nonce =>
    match env.accAddressFromBech32 a3 with
    | .error e => ([], .error (.parseError ("cosmos receiver: " ++ e)))
    | .ok receiverAddr =>
      match goParseInt a4 64 with
      | .error e => ([], .error (.parseError ("amount: " ++ e)))
      | .ok amount =>
        let tokenSymbol := a5
        let tokenContractAddr := NewEthereumAddress a6
        let ethSenderAddr := NewEthereumAddress a7
        let msg : MsgCreateEthereumClaims :=
          { EthereumChainID := ethChainID
            BridgeContractAddress := NewEthereumAddress ethContractAddress
            Orchestrator := env.fromAddress
            Claims := [.deposit
              { Nonce := nonce
                ERC20Token := NewERC20Token (goUint64OfInt amount) tokenSymbol tokenContractAddr
                EthereumSender := ethSenderAddr
                CosmosReceiver := receiverAddr }] }
        match env.validateClaims msg with
        | .error e => ([], .error (.validationError e))
        | .ok _ =>
          match env.broadcast [.createClaims msg] with
          | .error e => ([.broadcasted [.createClaims msg]], .error (.broadcastError e))
          | .ok _ => ([.broadcasted [.createClaims msg]], .ok ())

/-- Command `CmdSendETHWithdrawalRequest` RunE: withdrawal
[eth chain id] [eth contract address] [nonce]. -/
def CmdSendETHWithdrawalRequest (env : Env) (a0 a1 a2 : String) : CmdResult :=
  match parseNonce a2 with
  | .error e => ([], .error (.parseError e))
  | .ok nonce =>
    let msg : MsgCreateEthereumClaims :=
      { EthereumChainID := a0
        BridgeContractAddress := NewEthereumAddress a1
        Orchestrator := env.fromAddress
        Claims := [.withdrawalBatch { Nonce := nonce }] }
    match env.validateClaims msg with
    | .error e => ([], .error (.validationError e))
    | .ok _ =>
      match env.broadcast [.createClaims msg] with
      | .error e => ([.broadcasted [.createClaims msg]], .error (.broadcastError e))
      | .ok _ => ([.broadcasted [.createClaims msg]], .ok ())

/-- Command `CmdSendETHMultiSigRequest` RunE: multisig-update
[eth chain id] [eth contract address] [nonce]. -/
def CmdSendETHMultiSigRequest (env : Env) (a0 a1 a2 : String) : CmdResult :=
  match parseNonce a2 with
  | .error e => ([], .error (.parseError e))
  | .ok nonce =>
    let msg : MsgCreateEthereumClaims :=
      { EthereumChainID := a0
        BridgeContractAddress := NewEthereumAddress a1
        Orchestrator := env.fromAddress
        Claims := [.multiSigUpdate { Nonce := nonce }] }
    match env.validateClaims msg with
    | .error e => ([], .error (.validationError e))
    | .ok _ =>
      match env.broadcast [.createClaims msg] with
      | .error e => ([.broadcasted [.createClaims msg]], .error (.broadcastError e))
      | .ok _ => ([.broadcasted [.createClaims msg]], .ok ())

/-- Command `CmdValsetConfirm` RunE after the private-key slice: everything from
`ethCrypto.HexToECDSA(privKeyString)` on. -/
def CmdValsetConfirmCore (env : Env) (nonceArg pkHex : String) : CmdResult :=
  match env.hexToECDSA pkHex with
  | .error e => ([], .error (.keyError e))
  | .ok privateKey =>
    let nonce := nonceArg
    match env.queryValsetRequest nonce with
    | .error e => ([.queriedValsetRequest nonce], .error (.queryError e))
    | .ok none => ([.queriedValsetRequest nonce], .error .notFound)
    | .ok (some valset) =>
      let checkpoint := valset.GetCheckpoint
      match env.sign checkpoint privateKey with
      | .error e =>
        ([.queriedValsetRequest nonce, .signed checkpoint], .error (.signError e))
      | .ok signature =>
        let msg : MsgBridgeSignatureSubmission :=
          { Nonce := valset.Nonce
            ClaimType := .OrchestratorSignedMultiSigUpdate
            Orchestrator := env.fromAddress
            EthereumSignature := signature }
        match env.validateSubmission msg with
        | .error e =>
          ([.queriedValsetRequest nonce, .signed checkpoint], .error (.validationError e))
        | .ok _ =>
          match env.broadcast [.bridgeSig msg] with
          | .error e =>
            ([.queriedValsetRequest nonce, .signed checkpoint,
              .broadcasted [.bridgeSig msg]], .error (.broadcastError e))
          | .ok _ =>
            ([.queriedValsetRequest nonce, .signed checkpoint,
              .broadcasted [.bridgeSig msg]], .ok ())

/-- Command `CmdValsetConfirm` RunE: valset-confirm [nonce] [eth private key].
The first statement is `privKeyString := args[1][2:]`, a Go slice that
panics when the argument is shorter than 2 bytes. -/
def CmdValsetConfirm (env : Env) (nonceArg keyArg : String) : CmdResult :=
  match goSliceFrom keyArg 2 with
  | none => ([], .error .panicked)
  | some privKeyString => CmdValsetConfirmCore env nonceArg privKeyString

/-- Command `CmdOutgointTXBatchConfirm` RunE after the private-key slice:
everything from `ethCrypto.HexToECDSA(privKeyString)` on. -/
def CmdOutgointTXBatchConfirmCore (env : Env) (nonceArg pkHex : String) : CmdResult :=
  match env.hexToECDSA pkHex with
  | .error e => ([], .error (.keyError e))
  | .ok privateKey =>
    match env.queryLastObservedMultiSigUpdate with
    | .error e => ([.queriedLastObservedMultiSigUpdate], .error (.queryError e))
    | .ok none => ([.queriedLastObservedMultiSigUpdate], .error .notFound)
    | .ok (some updateRsp) =>
      let nonce := nonceArg
      match env.queryBatch nonce with
      | .error e =>
        ([.queriedLastObservedMultiSigUpdate, .queriedBatch nonce], .error (.queryError e))
      | .ok none =>
        ([.queriedLastObservedMultiSigUpdate, .queriedBatch nonce], .error .notFound)
      | .ok (some batch) =>
        match batch.GetCheckpoint updateRsp.Valset with
        | .error e =>
          ([.queriedLastObservedMultiSigUpdate, .queriedBatch nonce],
           .error (.checkpointError e))
        | .ok checkpoint =>
          match env.sign checkpoint privateKey with
          | .error e =>
            ([.queriedLastObservedMultiSigUpdate, .queriedBatch nonce,
              .signed checkpoint], .error (.signError e))
          | .ok signature =>
            let msg : MsgBridgeSignatureSubmission :=
              { Nonce := batch.Nonce
                ClaimType := .OrchestratorSignedWithdrawBatch
                Orchestrator := env.fromAddress
                EthereumSignature := signature }
            match env.validateSubmission msg with
            | .error e =>
              ([.queriedLastObservedMultiSigUpdate, .queriedBatch nonce,
                .signed checkpoint], .error (.validationError e))
            | .ok _ =>
              match env.broadcast [.bridgeSig msg] with
              | .error e =>
                ([.queriedLastObservedMultiSigUpdate, .queriedBatch nonce,
                  .signed checkpoint, .broadcasted [.bridgeSig msg]],
                 .error (.broadcastError e))
              | .ok _ =>
                ([.queriedLastObservedMultiSigUpdate, .queriedBatch nonce,
                  .signed checkpoint, .broadcasted [.bridgeSig msg]], .ok ())

/-- Command `CmdOutgointTXBatchConfirm` RunE: batch-confirm [nonce]
[eth private key]; the first statement is the slice `args[1][2:]`. -/
def CmdOutgointTXBatchConfirm (env : Env) (nonceArg keyArg : String) : CmdResult :=
  match goSliceFrom keyArg 2 with
  | none => ([], .error .panicked)
  | some privKeyString => CmdOutgointTXBatchConfirmCore env nonceArg privKeyString

/-! ## A concrete environment for evaluating the commands -/

def testValset : Valset :=
  { Nonce := 7
    Members := [{ EthereumAddress := NewEthereumAddress "0xv1", Power := 100 }]
    TotalPower := 100 }

def testBatch : OutgoingTxBatch :=
  { Nonce := 5
    Elements := [{ Destination := NewEthereumAddress "0xd1", Amount := 10,
                   Token := NewERC20Token 10 "PEG" (NewEthereumAddress "0xt1") }] }

def testEnv : Env :=
  { fromAddress := ⟨"cosmos1orch"⟩
    accAddressFromBech32 := fun s => .ok ⟨s⟩
    hexToECDSA := fun s => .ok ⟨s⟩
    sign := fun _ k => .ok ⟨k.raw⟩
    queryValsetRequest := fun n => if n = "7" then .ok (some testValset) else .ok none
    queryLastObservedMultiSigUpdate := .ok (some { Valset := testValset })
    queryBatch := fun n => if n = "5" then .ok (some testBatch) else .ok none
    validateClaims := fun _ => .ok ()
    validateSubmission := fun _ => .ok ()
    broadcast := fun _ => .ok () }

/-- Environment `testEnv` with no observed multisig update on record. -/
def noObservedEnv : Env :=
  { testEnv with queryLastObservedMultiSigUpdate := .ok none }

/-! ## Claims -/

/-- C2: every `EthereumBridgeBootstrappedClaim` the bootstrap command
broadcasts has `Nonce = 1`, whatever the argument values. -/
theorem c2_bootstrap_nonce_is_one (env : Env) (a0 a1 a2 a3 a4 a5 a6 : String)
    (m : MsgCreateEthereumClaims)
    (h : SdkMsg.createClaims m ∈
      broadcastMsgs (CmdSendETHBootstrapRequest env a0 a1 a2 a3 a4 a5 a6).1) :
    ∃ bc, m.Claims = [.bootstrapped bc] ∧ bc.Nonce = 1 := by
  simp only [CmdSendETHBootstrapRequest] at h
  split at h
  · simp [broadcastMsgs] at h
  · split at h
    · simp [broadcastMsgs] at h
    · split at h
      · simp [broadcastMsgs] at h
      · split at h
        · simp [broadcastMsgs] at h
        · split at h <;>
          · simp [broadcastMsgs] at h
            subst h
            exact ⟨_, rfl, rfl⟩

/-- The message the bootstrap command builds for the inputs of the C2
witness run. -/
def c2TestMsg : MsgCreateEthereumClaims :=
  { EthereumChainID := "15"
    BridgeContractAddress := NewEthereumAddress "0xc"
    Orchestrator := ⟨"cosmos1orch"⟩
    Claims := [.bootstrapped
      { Nonce := 1, Block := 3
        AllowedValidatorSet := [NewEthereumAddress "0xa", NewEthereumAddress "0xb"]
        ValidatorPowers := [10, 20], PeggyID := "pid", StartThreshold := 1 }] }

/-- Witness for C2 at a concrete bootstrap run. -/
theorem c2_bootstrap_nonce_is_one_witness :
    (SdkMsg.createClaims c2TestMsg ∈
      broadcastMsgs (CmdSendETHBootstrapRequest testEnv "15" "0xc" "3" "0xa,0xb" "10,20" "pid" "1").1) ∧
    ∃ bc, c2TestMsg.Claims = [.bootstrapped bc] ∧ bc.Nonce = 1 :=
  ⟨by decide, c2_bootstrap_nonce_is_one testEnv "15" "0xc" "3" "0xa,0xb" "10,20" "pid" "1"
      c2TestMsg (by decide)⟩

/-- Any claims message the deposit command broadcasts holds exactly one
deposit claim built from the parsed arguments. -/
theorem deposit_broadcast_spec (env : Env) (a0 a1 a2 a3 a4 a5 a6 a7 : String)
    (m : MsgCreateEthereumClaims)
    (h : SdkMsg.createClaims m ∈
      broadcastMsgs (CmdSendETHDepositRequest env a0 a1 a2 a3 a4 a5 a6 a7).1) :
    ∃ nonce receiver amount,
      parseNonce a2 = .ok nonce ∧
      env.accAddressFromBech32 a3 = .ok receiver ∧
      goParseInt a4 64 = .ok amount ∧
      m.Claims = [.deposit
        { Nonce := nonce
          ERC20Token := NewERC20Token (goUint64OfInt amount) a5 (NewEthereumAddress a6)
          EthereumSender := NewEthereumAddress a7
          CosmosReceiver := receiver }] := by
  cases hp : parseNonce a2 with
  | error e => simp only [CmdSendETHDepositRequest, hp, broadcastMsgs] at h; simp at h
  | ok nonce =>
    cases hr : env.accAddressFromBech32 a3 with
    | error e => simp only [CmdSendETHDepositRequest, hp, hr, broadcastMsgs] at h; simp at h
    | ok receiver =>
      cases ha : goParseInt a4 64 with
      | error e => simp only [CmdSendETHDepositRequest, hp, hr, ha, broadcastMsgs] at h; simp at h
      | ok amount =>
        simp only [CmdSendETHDepositRequest, hp, hr, ha] at h
        split at h
        · simp [broadcastMsgs] at h
        · split at h <;>
          · simp [broadcastMsgs] at h
            subst h
            exact ⟨nonce, receiver, amount, rfl, rfl, rfl, rfl⟩

/-- C6: the deposit command broadcasts exactly one claim, a deposit
claim whose nonce, receiver, token (amount, symbol, contract) and
Ethereum sender come from the parsed arguments. -/
theorem c6_deposit_claim_fields (env : Env) (a0 a1 a2 a3 a4 a5 a6 a7 : String)
    (m : MsgCreateEthereumClaims)
    (h : SdkMsg.createClaims m ∈
      broadcastMsgs (CmdSendETHDepositRequest env a0 a1 a2 a3 a4 a5 a6 a7).1) :
    ∃ nonce receiver amount,
      parseNonce a2 = .ok nonce ∧
      env.accAddressFromBech32 a3 = .ok receiver ∧
      goParseInt a4 64 = .ok amount ∧
      m.Claims = [.deposit
        { Nonce := nonce
          ERC20Token := NewERC20Token (goUint64OfInt amount) a5 (NewEthereumAddress a6)
          EthereumSender := NewEthereumAddress a7
          CosmosReceiver := receiver }] :=
  deposit_broadcast_spec env a0 a1 a2 a3 a4 a5 a6 a7 m h

/-- The message the deposit command builds for the inputs of the C6
witness run. -/
def c6TestMsg : MsgCreateEthereumClaims :=
  { EthereumChainID := "15"
    BridgeContractAddress := NewEthereumAddress "0xc"
    Orchestrator := ⟨"cosmos1orch"⟩
    Claims := [.deposit
      { Nonce := 4
        ERC20Token := NewERC20Token 33 "PEG" (NewEthereumAddress "0xt")
        EthereumSender := NewEthereumAddress "0xs"
        CosmosReceiver := ⟨"cosmos1recv"⟩ }] }

/-- Witness for C6 at a concrete deposit run. -/
theorem c6_deposit_claim_fields_witness :
    (SdkMsg.createClaims c6TestMsg ∈
      broadcastMsgs (CmdSendETHDepositRequest testEnv "15" "0xc" "4" "cosmos1recv" "33" "PEG" "0xt" "0xs").1) ∧
    ∃ nonce receiver amount,
      parseNonce "4" = .ok nonce ∧
      testEnv.accAddressFromBech32 "cosmos1recv" = .ok receiver ∧
      goParseInt "33" 64 = .ok amount ∧
      c6TestMsg.Claims = [.deposit
        { Nonce := nonce
          ERC20Token := NewERC20Token (goUint64OfInt amount) "PEG" (NewEthereumAddress "0xt")
          EthereumSender := NewEthereumAddress "0xs"
          CosmosReceiver := receiver }] :=
  ⟨by decide, c6_deposit_claim_fields testEnv "15" "0xc" "4" "cosmos1recv" "33" "PEG" "0xt" "0xs"
      c6TestMsg (by decide)⟩

/-- C7: the withdrawal and multisig-update commands each broadcast
exactly one claim carrying only the parsed nonce. -/
theorem c7_nonce_only_claims :
    (∀ (env : Env) (a0 a1 a2 : String) (m : MsgCreateEthereumClaims),
      SdkMsg.createClaims m ∈ broadcastMsgs (CmdSendETHWithdrawalRequest env a0 a1 a2).1 →
      ∃ nonce, parseNonce a2 = .ok nonce ∧ m.Claims = [.withdrawalBatch { Nonce := nonce }]) ∧
    (∀ (env : Env) (a0 a1 a2 : String) (m : MsgCreateEthereumClaims),
      SdkMsg.createClaims m ∈ broadcastMsgs (CmdSendETHMultiSigRequest env a0 a1 a2).1 →
      ∃ nonce, parseNonce a2 = .ok nonce ∧ m.Claims = [.multiSigUpdate { Nonce := nonce }]) := by
  constructor
  · intro env a0 a1 a2 m h
    cases hp : parseNonce a2 with
    | error e => simp only [CmdSendETHWithdrawalRequest, hp, broadcastMsgs] at h; simp at h
    | ok nonce =>
      simp only [CmdSendETHWithdrawalRequest, hp] at h
      split at h
      · simp [broadcastMsgs] at h
      · split at h <;>
        · simp [broadcastMsgs] at h
          subst h
          exact ⟨nonce, rfl, rfl⟩
  · intro env a0 a1 a2 m h
    cases hp : parseNonce a2 with
    | error e => simp only [CmdSendETHMultiSigRequest, hp, broadcastMsgs] at h; simp at h
    | ok nonce =>
      simp only [CmdSendETHMultiSigRequest, hp] at h
      split at h
      · simp [broadcastMsgs] at h
      · split at h <;>
        · simp [broadcastMsgs] at h
          subst h
          exact ⟨nonce, rfl, rfl⟩

/-- The messages the withdrawal and multisig-update commands build for
the inputs of the C7 witness runs. -/
def c7WithdrawMsg : MsgCreateEthereumClaims :=
  { EthereumChainID := "15"
    BridgeContractAddress := NewEthereumAddress "0xc"
    Orchestrator := ⟨"cosmos1orch"⟩
    Claims := [.withdrawalBatch { Nonce := 9 }] }

/-- See `c7WithdrawMsg`. -/
def c7MultiSigMsg : MsgCreateEthereumClaims :=
  { EthereumChainID := "15"
    BridgeContractAddress := NewEthereumAddress "0xc"
    Orchestrator := ⟨"cosmos1orch"⟩
    Claims := [.multiSigUpdate { Nonce := 9 }] }

/-- Witness for C7 at concrete withdrawal and multisig-update runs. -/
theorem c7_nonce_only_claims_witness :
    ((SdkMsg.createClaims c7WithdrawMsg ∈
        broadcastMsgs (CmdSendETHWithdrawalRequest testEnv "15" "0xc" "9").1) ∧
      ∃ nonce, parseNonce "9" = .ok nonce ∧
        c7WithdrawMsg.Claims = [.withdrawalBatch { Nonce := nonce }]) ∧
    (SdkMsg.createClaims c7MultiSigMsg ∈
        broadcastMsgs (CmdSendETHMultiSigRequest testEnv "15" "0xc" "9").1) ∧
      ∃ nonce, parseNonce "9" = .ok nonce ∧
        c7MultiSigMsg.Claims = [.multiSigUpdate { Nonce := nonce }] :=
  ⟨⟨by decide, c7_nonce_only_claims.1 testEnv "15" "0xc" "9" c7WithdrawMsg (by decide)⟩,
   by decide, c7_nonce_only_claims.2 testEnv "15" "0xc" "9" c7MultiSigMsg (by decide)⟩

/-- C9: both confirm commands take `args[1][2:]` unconditionally: an
eth-private-key argument shorter than 2 characters makes the slice
panic, and otherwise the first two characters are removed before hex
decoding, whether or not they are a "0x" prefix. -/
theorem c9_key_prefix_slice :
    (∀ (env : Env) (nonceArg keyArg : String), keyArg.length < 2 →
      CmdValsetConfirm env nonceArg keyArg = ([], .error .panicked) ∧
      CmdOutgointTXBatchConfirm env nonceArg keyArg = ([], .error .panicked)) ∧
    (∀ (env : Env) (nonceArg keyArg : String), 2 ≤ keyArg.length →
      CmdValsetConfirm env nonceArg keyArg =
        CmdValsetConfirmCore env nonceArg (keyArg.drop 2) ∧
      CmdOutgointTXBatchConfirm env nonceArg keyArg =
        CmdOutgointTXBatchConfirmCore env nonceArg (keyArg.drop 2)) := by
  constructor
  · intro env nonceArg keyArg h
    have h2 : ¬ 2 ≤ keyArg.length := Nat.not_le.mpr h
    exact ⟨by simp [CmdValsetConfirm, goSliceFrom, h2],
           by simp [CmdOutgointTXBatchConfirm, goSliceFrom, h2]⟩
  · intro env nonceArg keyArg h
    exact ⟨by simp [CmdValsetConfirm, goSliceFrom, h],
           by simp [CmdOutgointTXBatchConfirm, goSliceFrom, h]⟩

/-- Witness for C9: a one-character key panics, a four-character key is
hex-decoded from its third character on. -/
theorem c9_key_prefix_slice_witness :
    ("a".length < 2 ∧
      CmdValsetConfirm testEnv "7" "a" = ([], .error .panicked) ∧
      CmdOutgointTXBatchConfirm testEnv "7" "a" = ([], .error .panicked)) ∧
    (2 ≤ "0xab".length ∧
      CmdValsetConfirm testEnv "7" "0xab" =
        CmdValsetConfirmCore testEnv "7" ("0xab".drop 2) ∧
      CmdOutgointTXBatchConfirm testEnv "7" "0xab" =
        CmdOutgointTXBatchConfirmCore testEnv "7" ("0xab".drop 2)) :=
  ⟨⟨by decide, c9_key_prefix_slice.1 testEnv "7" "a" (by decide)⟩,
   by decide, c9_key_prefix_slice.2 testEnv "7" "0xab" (by decide)⟩

/-- C10: when the lastObservedMultiSigUpdate query returns an empty
payload, batch-confirm fails with ErrNotFound before the batch query:
the trace holds the multisig-update query only and no `queriedBatch`
event, and `env.queryBatch` is universally quantified, so the outcome
does not depend on it. -/
theorem c10_batch_confirm_requires_observed_update (env : Env)
    (nonceArg keyArg : String) (key : ECDSAKey)
    (hlen : 2 ≤ keyArg.length)
    (hkey : env.hexToECDSA (keyArg.drop 2) = .ok key)
    (hobs : env.queryLastObservedMultiSigUpdate = .ok none) :
    CmdOutgointTXBatchConfirm env nonceArg keyArg =
      ([.queriedLastObservedMultiSigUpdate], .error .notFound) := by
  simp [CmdOutgointTXBatchConfirm, goSliceFrom, hlen,
        CmdOutgointTXBatchConfirmCore, hkey, hobs]

/-- Witness for C10 in an environment with no observed multisig update. -/
theorem c10_batch_confirm_requires_observed_update_witness :
    2 ≤ "0xab".length ∧
    noObservedEnv.hexToECDSA ("0xab".drop 2) = .ok ⟨"0xab".drop 2⟩ ∧
    noObservedEnv.queryLastObservedMultiSigUpdate = .ok none ∧
    CmdOutgointTXBatchConfirm noObservedEnv "5" "0xab" =
      ([.queriedLastObservedMultiSigUpdate], .error .notFound) :=
  ⟨by decide, rfl, rfl,
   c10_batch_confirm_requires_observed_update noObservedEnv "5" "0xab"
     ⟨"0xab".drop 2⟩ (by decide) rfl rfl⟩

/-- C3: whenever a chain query of the confirm commands returns an empty
payload, the command returns ErrNotFound, having signed no checkpoint
and broadcast no message. -/
theorem c3_empty_payload_is_not_found :
    (∀ (env : Env) (nonceArg keyArg : String) (key : ECDSAKey), 2 ≤ keyArg.length →
      env.hexToECDSA (keyArg.drop 2) = .ok key →
      env.queryValsetRequest nonceArg = .ok none →
      (CmdValsetConfirm env nonceArg keyArg).2 = .error .notFound ∧
      signedCheckpoints (CmdValsetConfirm env nonceArg keyArg).1 = [] ∧
      broadcastMsgs (CmdValsetConfirm env nonceArg keyArg).1 = []) ∧
    (∀ (env : Env) (nonceArg keyArg : String) (key : ECDSAKey), 2 ≤ keyArg.length →
      env.hexToECDSA (keyArg.drop 2) = .ok key →
      env.queryLastObservedMultiSigUpdate = .ok none →
      (CmdOutgointTXBatchConfirm env nonceArg keyArg).2 = .error .notFound ∧
      signedCheckpoints (CmdOutgointTXBatchConfirm env nonceArg keyArg).1 = [] ∧
      broadcastMsgs (CmdOutgointTXBatchConfirm env nonceArg keyArg).1 = []) ∧
    (∀ (env : Env) (nonceArg keyArg : String) (key : ECDSAKey)
       (rsp : MultiSigUpdateResponse), 2 ≤ keyArg.length →
      env.hexToECDSA (keyArg.drop 2) = .ok key →
      env.queryLastObservedMultiSigUpdate = .ok (some rsp) →
      env.queryBatch nonceArg = .ok none →
      (CmdOutgointTXBatchConfirm env nonceArg keyArg).2 = .error .notFound ∧
      signedCheckpoints (CmdOutgointTXBatchConfirm env nonceArg keyArg).1 = [] ∧
      broadcastMsgs (CmdOutgointTXBatchConfirm env nonceArg keyArg).1 = []) := by
  refine ⟨?_, ?_, ?_⟩
  · intro env nonceArg keyArg key hlen hkey hq
    have hrun : CmdValsetConfirm env nonceArg keyArg =
        ([.queriedValsetRequest nonceArg], .error .notFound) := by
      simp [CmdValsetConfirm, goSliceFrom, hlen, CmdValsetConfirmCore, hkey, hq]
    rw [hrun]
    exact ⟨rfl, rfl, rfl⟩
  · intro env nonceArg keyArg key hlen hkey hq
    have hrun : CmdOutgointTXBatchConfirm env nonceArg keyArg =
        ([.queriedLastObservedMultiSigUpdate], .error .notFound) := by
      simp [CmdOutgointTXBatchConfirm, goSliceFrom, hlen,
            CmdOutgointTXBatchConfirmCore, hkey, hq]
    rw [hrun]
    exact ⟨rfl, rfl, rfl⟩
  · intro env nonceArg keyArg key rsp hlen hkey hq hb
    have hrun : CmdOutgointTXBatchConfirm env nonceArg keyArg =
        ([.queriedLastObservedMultiSigUpdate, .queriedBatch nonceArg], .error .notFound) := by
      simp [CmdOutgointTXBatchConfirm, goSliceFrom, hlen,
            CmdOutgointTXBatchConfirmCore, hkey, hq, hb]
    rw [hrun]
    exact ⟨rfl, rfl, rfl⟩

/-- Witness for C3: empty valset payload (nonce "3" is unknown to
`testEnv`), empty multisig-update payload, and empty batch payload. -/
theorem c3_empty_payload_is_not_found_witness :
    (2 ≤ "0xab".length ∧
      testEnv.queryValsetRequest "3" = .ok none ∧
      (CmdValsetConfirm testEnv "3" "0xab").2 = .error .notFound ∧
      signedCheckpoints (CmdValsetConfirm testEnv "3" "0xab").1 = [] ∧
      broadcastMsgs (CmdValsetConfirm testEnv "3" "0xab").1 = []) ∧
    (noObservedEnv.queryLastObservedMultiSigUpdate = .ok none ∧
      (CmdOutgointTXBatchConfirm noObservedEnv "5" "0xab").2 = .error .notFound ∧
      signedCheckpoints (CmdOutgointTXBatchConfirm noObservedEnv "5" "0xab").1 = [] ∧
      broadcastMsgs (CmdOutgointTXBatchConfirm noObservedEnv "5" "0xab").1 = []) ∧
    (testEnv.queryBatch "3" = .ok none ∧
      (CmdOutgointTXBatchConfirm testEnv "3" "0xab").2 = .error .notFound ∧
      signedCheckpoints (CmdOutgointTXBatchConfirm testEnv "3" "0xab").1 = [] ∧
      broadcastMsgs (CmdOutgointTXBatchConfirm testEnv "3" "0xab").1 = []) := by
  refine ⟨⟨by decide, by rfl, ?_⟩, ⟨rfl, ?_⟩, ⟨by rfl, ?_⟩⟩
  · exact c3_empty_payload_is_not_found.1 testEnv "3" "0xab" ⟨"0xab".drop 2⟩
      (by decide) rfl (by rfl)
  · exact c3_empty_payload_is_not_found.2.1 noObservedEnv "5" "0xab" ⟨"0xab".drop 2⟩
      (by decide) rfl rfl
  · exact c3_empty_payload_is_not_found.2.2 testEnv "3" "0xab" ⟨"0xab".drop 2⟩
      { Valset := testValset } (by decide) rfl rfl (by rfl)

/-- C5: every signature submission a confirm command broadcasts carries
the claim type of its command (multisig update for valset-confirm,
withdraw batch for batch-confirm) and the nonce of the record the chain
query returned. -/
theorem c5_submission_claim_type_and_nonce :
    (∀ (env : Env) (nonceArg keyArg : String) (m : MsgBridgeSignatureSubmission),
      SdkMsg.bridgeSig m ∈ broadcastMsgs (CmdValsetConfirm env nonceArg keyArg).1 →
      m.ClaimType = .OrchestratorSignedMultiSigUpdate ∧
      ∃ vs, env.queryValsetRequest nonceArg = .ok (some vs) ∧ m.Nonce = vs.Nonce) ∧
    (∀ (env : Env) (nonceArg keyArg : String) (m : MsgBridgeSignatureSubmission),
      SdkMsg.bridgeSig m ∈ broadcastMsgs (CmdOutgointTXBatchConfirm env nonceArg keyArg).1 →
      m.ClaimType = .OrchestratorSignedWithdrawBatch ∧
      ∃ b, env.queryBatch nonceArg = .ok (some b) ∧ m.Nonce = b.Nonce) := by
  constructor
  · intro env nonceArg keyArg m h
    rcases hsl : goSliceFrom keyArg 2 with _ | pk
    · simp only [CmdValsetConfirm, hsl, broadcastMsgs] at h; simp at h
    · simp only [CmdValsetConfirm, hsl] at h
      cases hk : env.hexToECDSA pk with
      | error e => simp only [CmdValsetConfirmCore, hk, broadcastMsgs] at h; simp at h
      | ok key =>
        cases hq : env.queryValsetRequest nonceArg with
        | error e => simp only [CmdValsetConfirmCore, hk, hq, broadcastMsgs] at h; simp at h
        | ok ov =>
          cases ov with
          | none => simp only [CmdValsetConfirmCore, hk, hq, broadcastMsgs] at h; simp at h
          | some vs =>
            simp only [CmdValsetConfirmCore, hk, hq] at h
            split at h
            · simp [broadcastMsgs] at h
            · split at h
              · simp [broadcastMsgs] at h
              · split at h <;>
                · simp [broadcastMsgs] at h
                  subst h
                  exact ⟨rfl, vs, rfl, rfl⟩
  · intro env nonceArg keyArg m h
    rcases hsl : goSliceFrom keyArg 2 with _ | pk
    · simp only [CmdOutgointTXBatchConfirm, hsl, broadcastMsgs] at h; simp at h
    · simp only [CmdOutgointTXBatchConfirm, hsl] at h
      cases hk : env.hexToECDSA pk with
      | error e => simp only [CmdOutgointTXBatchConfirmCore, hk, broadcastMsgs] at h; simp at h
      | ok key =>
        cases hq : env.queryLastObservedMultiSigUpdate with
        | error e =>
          simp only [CmdOutgointTXBatchConfirmCore, hk, hq, broadcastMsgs] at h; simp at h
        | ok orsp =>
          cases orsp with
          | none =>
            simp only [CmdOutgointTXBatchConfirmCore, hk, hq, broadcastMsgs] at h; simp at h
          | some rsp =>
            cases hb : env.queryBatch nonceArg with
            | error e =>
              simp only [CmdOutgointTXBatchConfirmCore, hk, hq, hb, broadcastMsgs] at h
              simp at h
            | ok ob =>
              cases ob with
              | none =>
                simp only [CmdOutgointTXBatchConfirmCore, hk, hq, hb, broadcastMsgs] at h
                simp at h
              | some batch =>
                simp only [CmdOutgointTXBatchConfirmCore, hk, hq, hb,
                           OutgoingTxBatch.GetCheckpoint] at h
                split at h
                · simp [broadcastMsgs] at h
                · split at h
                  · simp [broadcastMsgs] at h
                  · split at h <;>
                    · simp [broadcastMsgs] at h
                      subst h
                      exact ⟨rfl, batch, rfl, rfl⟩

/-- Witness for C5 at concrete valset-confirm and batch-confirm runs. -/
theorem c5_submission_claim_type_and_nonce_witness :
    (SdkMsg.bridgeSig
        { Nonce := 7, ClaimType := .OrchestratorSignedMultiSigUpdate,
          Orchestrator := ⟨"cosmos1orch"⟩, EthereumSignature := ⟨"ab"⟩ } ∈
      broadcastMsgs (CmdValsetConfirm testEnv "7" "0xab").1) ∧
    (SdkMsg.bridgeSig
        { Nonce := 5, ClaimType := .OrchestratorSignedWithdrawBatch,
          Orchestrator := ⟨"cosmos1orch"⟩, EthereumSignature := ⟨"ab"⟩ } ∈
      broadcastMsgs (CmdOutgointTXBatchConfirm testEnv "5" "0xab").1) ∧
    ({ Nonce := 7, ClaimType := .OrchestratorSignedMultiSigUpdate,
       Orchestrator := ⟨"cosmos1orch"⟩,
       EthereumSignature := ⟨"ab"⟩ : MsgBridgeSignatureSubmission }.ClaimType =
        .OrchestratorSignedMultiSigUpdate ∧
      ∃ vs, testEnv.queryValsetRequest "7" = .ok (some vs) ∧ (7 : Nat) = vs.Nonce) ∧
    ({ Nonce := 5, ClaimType := .OrchestratorSignedWithdrawBatch,
       Orchestrator := ⟨"cosmos1orch"⟩,
       EthereumSignature := ⟨"ab"⟩ : MsgBridgeSignatureSubmission }.ClaimType =
        .OrchestratorSignedWithdrawBatch ∧
      ∃ b, testEnv.queryBatch "5" = .ok (some b) ∧ (5 : Nat) = b.Nonce) :=
  ⟨by decide, by decide,
   c5_submission_claim_type_and_nonce.1 testEnv "7" "0xab" _ (by decide),
   c5_submission_claim_type_and_nonce.2 testEnv "5" "0xab" _ (by decide)⟩

/-- C1: every checkpoint the batch-confirm command passes to the signer
is exactly the batch checkpoint of the queried batch: the deterministic
tuple of (peggyID, the "transactionBatch" tag, the batch's nonce, the
batch's transfers, and the checkpoint of the valset bound via the
lastObservedMultiSigUpdate response), i.e. the value
`OutgoingTxBatch.GetCheckpoint` computes for that specific nonce and
type. -/
theorem c1_batch_confirm_signs_batch_checkpoint (env : Env)
    (nonceArg keyArg : String) (cp : Checkpoint)
    (h : cp ∈ signedCheckpoints (CmdOutgointTXBatchConfirm env nonceArg keyArg).1) :
    ∃ rsp batch,
      env.queryLastObservedMultiSigUpdate = .ok (some rsp) ∧
      env.queryBatch nonceArg = .ok (some batch) ∧
      OutgoingTxBatch.GetCheckpoint batch rsp.Valset = .ok cp ∧
      cp = .batchCheckpoint peggyID "transactionBatch" batch.Nonce batch.Elements
        rsp.Valset.GetCheckpoint := by
  rcases hsl : goSliceFrom keyArg 2 with _ | pk
  · simp only [CmdOutgointTXBatchConfirm, hsl, signedCheckpoints] at h; simp at h
  · simp only [CmdOutgointTXBatchConfirm, hsl] at h
    cases hk : env.hexToECDSA pk with
    | error e => simp only [CmdOutgointTXBatchConfirmCore, hk, signedCheckpoints] at h; simp at h
    | ok key =>
      cases hq : env.queryLastObservedMultiSigUpdate with
      | error e =>
        simp only [CmdOutgointTXBatchConfirmCore, hk, hq, signedCheckpoints] at h; simp at h
      | ok orsp =>
        cases orsp with
        | none =>
          simp only [CmdOutgointTXBatchConfirmCore, hk, hq, signedCheckpoints] at h; simp at h
        | some rsp =>
          cases hb : env.queryBatch nonceArg with
          | error e =>
            simp only [CmdOutgointTXBatchConfirmCore, hk, hq, hb, signedCheckpoints] at h
            simp at h
          | ok ob =>
            cases ob with
            | none =>
              simp only [CmdOutgointTXBatchConfirmCore, hk, hq, hb, signedCheckpoints] at h
              simp at h
            | some batch =>
              simp only [CmdOutgointTXBatchConfirmCore, hk, hq, hb,
                         OutgoingTxBatch.GetCheckpoint] at h
              split at h
              · simp [signedCheckpoints] at h
                subst h
                exact ⟨rsp, batch, rfl, rfl, rfl, rfl⟩
              · split at h
                · simp [signedCheckpoints] at h
                  subst h
                  exact ⟨rsp, batch, rfl, rfl, rfl, rfl⟩
                · split at h <;>
                  · simp [signedCheckpoints] at h
                    subst h
                    exact ⟨rsp, batch, rfl, rfl, rfl, rfl⟩

/-- The checkpoint batch-confirm signs in the C1 witness run. -/
def c1TestCheckpoint : Checkpoint :=
  .batchCheckpoint peggyID "transactionBatch" testBatch.Nonce testBatch.Elements
    testValset.GetCheckpoint

/-- Witness for C1 at a concrete batch-confirm run against `testEnv`. -/
theorem c1_batch_confirm_signs_batch_checkpoint_witness :
    (c1TestCheckpoint ∈
      signedCheckpoints (CmdOutgointTXBatchConfirm testEnv "5" "0xab").1) ∧
    ∃ rsp batch,
      testEnv.queryLastObservedMultiSigUpdate = .ok (some rsp) ∧
      testEnv.queryBatch "5" = .ok (some batch) ∧
      OutgoingTxBatch.GetCheckpoint batch rsp.Valset = .ok c1TestCheckpoint ∧
      c1TestCheckpoint = .batchCheckpoint peggyID "transactionBatch" batch.Nonce
        batch.Elements rsp.Valset.GetCheckpoint :=
  ⟨by decide, c1_batch_confirm_signs_batch_checkpoint testEnv "5" "0xab"
     c1TestCheckpoint (by decide)⟩

/-- A command run validated everything before broadcasting: every
broadcast `MsgCreateEthereumClaims` (resp. `MsgBridgeSignatureSubmission`)
passed its ValidateBasic, and a run that failed in argument parsing or
in ValidateBasic broadcast nothing. -/
def ValidatedBeforeBroadcast (env : Env) (r : CmdResult) : Prop :=
  (∀ m, SdkMsg.createClaims m ∈ broadcastMsgs r.1 → env.validateClaims m = .ok ()) ∧
  (∀ m, SdkMsg.bridgeSig m ∈ broadcastMsgs r.1 → env.validateSubmission m = .ok ()) ∧
  (∀ e, r.2 = .error (.parseError e) ∨ r.2 = .error (.validationError e) →
    broadcastMsgs r.1 = [])

/-- A run that broadcast nothing is trivially validated-before-broadcast. -/
theorem validatedBeforeBroadcast_of_empty (env : Env) (r : CmdResult)
    (htr : broadcastMsgs r.1 = []) : ValidatedBeforeBroadcast env r :=
  ⟨fun _ hm => absurd hm (by simp [htr]), fun _ hm => absurd hm (by simp [htr]),
   fun _ _ => htr⟩

/-- A run that broadcast one claims message did so after its
ValidateBasic succeeded and did not end in a parse/validation error. -/
theorem validatedBeforeBroadcast_of_claims (env : Env) (tr : List Event)
    (msg : MsgCreateEthereumClaims) (res : Except CmdError Unit)
    (htr : broadcastMsgs tr = [SdkMsg.createClaims msg])
    (hv : env.validateClaims msg = .ok ())
    (hres : ∀ e, res ≠ .error (.parseError e) ∧ res ≠ .error (.validationError e)) :
    ValidatedBeforeBroadcast env (tr, res) := by
  refine ⟨?_, ?_, ?_⟩
  · intro m hm
    rw [htr] at hm
    simp only [List.mem_singleton, SdkMsg.createClaims.injEq] at hm
    subst hm
    exact hv
  · intro m hm
    rw [htr] at hm
    simp at hm
  · intro e he
    rcases he with he | he
    · exact absurd he (hres e).1
    · exact absurd he (hres e).2

/-- As `validatedBeforeBroadcast_of_claims`, for a signature submission. -/
theorem validatedBeforeBroadcast_of_sig (env : Env) (tr : List Event)
    (msg : MsgBridgeSignatureSubmission) (res : Except CmdError Unit)
    (htr : broadcastMsgs tr = [SdkMsg.bridgeSig msg])
    (hv : env.validateSubmission msg = .ok ())
    (hres : ∀ e, res ≠ .error (.parseError e) ∧ res ≠ .error (.validationError e)) :
    ValidatedBeforeBroadcast env (tr, res) := by
  refine ⟨?_, ?_, ?_⟩
  · intro m hm
    rw [htr] at hm
    simp at hm
  · intro m hm
    rw [htr] at hm
    simp only [List.mem_singleton, SdkMsg.bridgeSig.injEq] at hm
    subst hm
    exact hv
  · intro e he
    rcases he with he | he
    · exact absurd he (hres e).1
    · exact absurd he (hres e).2

/-- The bootstrap command validates before broadcasting. -/
theorem vbb_bootstrap (env : Env) (a0 a1 a2 a3 a4 a5 a6 : String) :
    ValidatedBeforeBroadcast env (CmdSendETHBootstrapRequest env a0 a1 a2 a3 a4 a5 a6) := by
  unfold CmdSendETHBootstrapRequest
  dsimp only
  split
  · exact validatedBeforeBroadcast_of_empty _ _ rfl
  · split
    · exact validatedBeforeBroadcast_of_empty _ _ rfl
    · split
      · exact validatedBeforeBroadcast_of_empty _ _ rfl
      · split
        · exact validatedBeforeBroadcast_of_empty _ _ rfl
        · rename_i u hv
          split
          · exact validatedBeforeBroadcast_of_claims _ _ _ _ (by simp [broadcastMsgs]) hv
              (by intro e; exact ⟨by simp, by simp⟩)
          · exact validatedBeforeBroadcast_of_claims _ _ _ _ (by simp [broadcastMsgs]) hv
              (by intro e; exact ⟨by simp, by simp⟩)

/-- The deposit command validates before broadcasting. -/
theorem vbb_deposit (env : Env) (a0 a1 a2 a3 a4 a5 a6 a7 : String) :
    ValidatedBeforeBroadcast env (CmdSendETHDepositRequest env a0 a1 a2 a3 a4 a5 a6 a7) := by
  unfold CmdSendETHDepositRequest
  dsimp only
  split
  · exact validatedBeforeBroadcast_of_empty _ _ rfl
  · split
    · exact validatedBeforeBroadcast_of_empty _ _ rfl
    · split
      · exact validatedBeforeBroadcast_of_empty _ _ rfl
      · split
        · exact validatedBeforeBroadcast_of_empty _ _ rfl
        · rename_i u hv
          split
          · exact validatedBeforeBroadcast_of_claims _ _ _ _ (by simp [broadcastMsgs]) hv
              (by intro e; exact ⟨by simp, by simp⟩)
          · exact validatedBeforeBroadcast_of_claims _ _ _ _ (by simp [broadcastMsgs]) hv
              (by intro e; exact ⟨by simp, by simp⟩)

/-- The withdrawal command validates before broadcasting. -/
theorem vbb_withdrawal (env : Env) (a0 a1 a2 : String) :
    ValidatedBeforeBroadcast env (CmdSendETHWithdrawalRequest env a0 a1 a2) := by
  unfold CmdSendETHWithdrawalRequest
  dsimp only
  split
  · exact validatedBeforeBroadcast_of_empty _ _ rfl
  · split
    · exact validatedBeforeBroadcast_of_empty _ _ rfl
    · rename_i u hv
      split
      · exact validatedBeforeBroadcast_of_claims _ _ _ _ (by simp [broadcastMsgs]) hv
          (by intro e; exact ⟨by simp, by simp⟩)
      · exact validatedBeforeBroadcast_of_claims _ _ _ _ (by simp [broadcastMsgs]) hv
          (by intro e; exact ⟨by simp, by simp⟩)

/-- The multisig-update command validates before broadcasting. -/
theorem vbb_multisig (env : Env) (a0 a1 a2 : String) :
    ValidatedBeforeBroadcast env (CmdSendETHMultiSigRequest env a0 a1 a2) := by
  unfold CmdSendETHMultiSigRequest
  dsimp only
  split
  · exact validatedBeforeBroadcast_of_empty _ _ rfl
  · split
    · exact validatedBeforeBroadcast_of_empty _ _ rfl
    · rename_i u hv
      split
      · exact validatedBeforeBroadcast_of_claims _ _ _ _ (by simp [broadcastMsgs]) hv
          (by intro e; exact ⟨by simp, by simp⟩)
      · exact validatedBeforeBroadcast_of_claims _ _ _ _ (by simp [broadcastMsgs]) hv
          (by intro e; exact ⟨by simp, by simp⟩)

/-- The valset-confirm command validates before broadcasting. -/
theorem vbb_valset_confirm (env : Env) (nonceArg keyArg : String) :
    ValidatedBeforeBroadcast env (CmdValsetConfirm env nonceArg keyArg) := by
  unfold CmdValsetConfirm CmdValsetConfirmCore
  dsimp only
  split
  · exact validatedBeforeBroadcast_of_empty _ _ rfl
  · split
    · exact validatedBeforeBroadcast_of_empty _ _ rfl
    · split
      · exact validatedBeforeBroadcast_of_empty _ _ rfl
      · exact validatedBeforeBroadcast_of_empty _ _ rfl
      · split
        · exact validatedBeforeBroadcast_of_empty _ _ (by simp [broadcastMsgs])
        · split
          · exact validatedBeforeBroadcast_of_empty _ _ (by simp [broadcastMsgs])
          · rename_i u hv
            split
            · exact validatedBeforeBroadcast_of_sig _ _ _ _ (by simp [broadcastMsgs]) hv
                (by intro e; exact ⟨by simp, by simp⟩)
            · exact validatedBeforeBroadcast_of_sig _ _ _ _ (by simp [broadcastMsgs]) hv
                (by intro e; exact ⟨by simp, by simp⟩)

/-- The batch-confirm command validates before broadcasting. -/
theorem vbb_batch_confirm (env : Env) (nonceArg keyArg : String) :
    ValidatedBeforeBroadcast env (CmdOutgointTXBatchConfirm env nonceArg keyArg) := by
  unfold CmdOutgointTXBatchConfirm CmdOutgointTXBatchConfirmCore
  dsimp only
  split
  · exact validatedBeforeBroadcast_of_empty _ _ rfl
  · split
    · exact validatedBeforeBroadcast_of_empty _ _ rfl
    · split
      · exact validatedBeforeBroadcast_of_empty _ _ rfl
      · exact validatedBeforeBroadcast_of_empty _ _ rfl
      · split
        · exact validatedBeforeBroadcast_of_empty _ _ rfl
        · exact validatedBeforeBroadcast_of_empty _ _ rfl
        · split
          · exact validatedBeforeBroadcast_of_empty _ _ rfl
          · split
            · exact validatedBeforeBroadcast_of_empty _ _ (by simp [broadcastMsgs])
            · split
              · exact validatedBeforeBroadcast_of_empty _ _ (by simp [broadcastMsgs])
              · rename_i u hv
                split
                · exact validatedBeforeBroadcast_of_sig _ _ _ _ (by simp [broadcastMsgs]) hv
                    (by intro e; exact ⟨by simp, by simp⟩)
                · exact validatedBeforeBroadcast_of_sig _ _ _ _ (by simp [broadcastMsgs]) hv
                    (by intro e; exact ⟨by simp, by simp⟩)

/-- C4: every CLI command that constructs a `MsgCreateEthereumClaims` or
`MsgBridgeSignatureSubmission` runs the message's ValidateBasic before
broadcast: whatever it broadcast passed validation, and a parse or
validation failure means nothing was broadcast. -/
theorem c4_validate_before_broadcast :
    (∀ (env : Env) (a0 a1 a2 a3 a4 a5 a6 : String),
      ValidatedBeforeBroadcast env (CmdSendETHBootstrapRequest env a0 a1 a2 a3 a4 a5 a6)) ∧
    (∀ (env : Env) (a0 a1 a2 a3 a4 a5 a6 a7 : String),
      ValidatedBeforeBroadcast env (CmdSendETHDepositRequest env a0 a1 a2 a3 a4 a5 a6 a7)) ∧
    (∀ (env : Env) (a0 a1 a2 : String),
      ValidatedBeforeBroadcast env (CmdSendETHWithdrawalRequest env a0 a1 a2)) ∧
    (∀ (env : Env) (a0 a1 a2 : String),
      ValidatedBeforeBroadcast env (CmdSendETHMultiSigRequest env a0 a1 a2)) ∧
    (∀ (env : Env) (nonceArg keyArg : String),
      ValidatedBeforeBroadcast env (CmdValsetConfirm env nonceArg keyArg)) ∧
    (∀ (env : Env) (nonceArg keyArg : String),
      ValidatedBeforeBroadcast env (CmdOutgointTXBatchConfirm env nonceArg keyArg)) :=
  ⟨vbb_bootstrap, vbb_deposit, vbb_withdrawal, vbb_multisig,
   vbb_valset_confirm, vbb_batch_confirm⟩

/-- The message the withdrawal command builds in the C4 witness run. -/
def c4TestMsg : MsgCreateEthereumClaims :=
  { EthereumChainID := "15"
    BridgeContractAddress := NewEthereumAddress "0xc"
    Orchestrator := ⟨"cosmos1orch"⟩
    Claims := [.withdrawalBatch { Nonce := 9 }] }

/-- Witness for C4: a concrete broadcast message did pass ValidateBasic. -/
theorem c4_validate_before_broadcast_witness :
    (SdkMsg.createClaims c4TestMsg ∈
      broadcastMsgs (CmdSendETHWithdrawalRequest testEnv "15" "0xc" "9").1) ∧
    testEnv.validateClaims c4TestMsg = .ok () :=
  ⟨by decide,
   (c4_validate_before_broadcast.2.2.1 testEnv "15" "0xc" "9").1 c4TestMsg (by decide)⟩

/-- On `[-2^64, 0)`, the Go `uint64` conversion adds `2^64`. -/
theorem goUint64OfInt_neg (a : Int) (h1 : -(2 : Int) ^ 64 < a) (h2 : a < 0) :
    goUint64OfInt a = (a + 2 ^ 64).toNat := by
  unfold goUint64OfInt
  have hmod : a % (2 : Int) ^ 64 = (a + 2 ^ 64) % 2 ^ 64 :=
    (Int.add_mul_emod_self_left (a := a) (b := 2 ^ 64) (c := 1)).symm
  rw [hmod, Int.emod_eq_of_lt (by omega) (by omega)]

/-- A minus sign followed by decimal digits of value in `[1, 2^63]`
parses as the negated value under Go `strconv.ParseInt(s, 10, 64)`. -/
theorem goParseInt_neg_digits (d : Char) (ds : List Char)
    (hd : (d :: ds).all isDecDigit = true)
    (h1 : 1 ≤ digitsToNat (d :: ds)) (h2 : digitsToNat (d :: ds) ≤ 2 ^ 63) :
    goParseInt (String.mk ('-' :: d :: ds)) 64 =
      .ok (-(digitsToNat (d :: ds) : Int)) := by
  have hle : ((digitsToNat (d :: ds)) : Int) ≤ 2 ^ 63 := by exact_mod_cast h2
  have hge : (1 : Int) ≤ ((digitsToNat (d :: ds)) : Int) := by exact_mod_cast h1
  have hstep : goParseInt (String.mk ('-' :: d :: ds)) 64 =
      goParseIntCore true (d :: ds) 64 := by
    unfold goParseInt
    simp
  rw [hstep]
  unfold goParseIntCore
  rw [if_neg (by simp), if_pos hd]
  have hpow : ((2 : Int) ^ (64 - 1) : Int) = 2 ^ 63 := by norm_num
  rw [if_pos]
  · simp
  · refine ⟨?_, ?_⟩ <;> simp [hpow] <;> omega

/-- C8: the deposit amount is parsed with `strconv.ParseInt` (signed,
64-bit) and cast to `uint64`: every decimal input `-n` with
`1 ≤ n ≤ 2^63` parses successfully to `a = -n`, and the claim the
command broadcasts carries ERC20 amount `(a + 2^64)` (wrap-around
modulo `2^64`) instead of a rejection. -/
theorem c8_negative_amount_wraps (d : Char) (ds : List Char)
    (hd : (d :: ds).all isDecDigit = true)
    (h1 : 1 ≤ digitsToNat (d :: ds)) (h2 : digitsToNat (d :: ds) ≤ 2 ^ 63) :
    goParseInt (String.mk ('-' :: d :: ds)) 64 =
      .ok (-(digitsToNat (d :: ds) : Int)) ∧
    ∀ (env : Env) (a0 a1 a2 a3 a5 a6 a7 : String) (m : MsgCreateEthereumClaims),
      SdkMsg.createClaims m ∈ broadcastMsgs
        (CmdSendETHDepositRequest env a0 a1 a2 a3
          (String.mk ('-' :: d :: ds)) a5 a6 a7).1 →
      ∃ nonce receiver,
        parseNonce a2 = .ok nonce ∧
        env.accAddressFromBech32 a3 = .ok receiver ∧
        m.Claims = [.deposit
          { Nonce := nonce
            ERC20Token := NewERC20Token
              ((-(digitsToNat (d :: ds) : Int) + 2 ^ 64).toNat) a5
              (NewEthereumAddress a6)
            EthereumSender := NewEthereumAddress a7
            CosmosReceiver := receiver }] := by
  have hparse := goParseInt_neg_digits d ds hd h1 h2
  refine ⟨hparse, ?_⟩
  intro env a0 a1 a2 a3 a5 a6 a7 m hm
  obtain ⟨nonce, receiver, amount, hp, hr, ha, hclaims⟩ :=
    deposit_broadcast_spec env a0 a1 a2 a3 _ a5 a6 a7 m hm
  rw [hparse] at ha
  injection ha with ha
  subst ha
  refine ⟨nonce, receiver, hp, hr, ?_⟩
  rw [hclaims, goUint64OfInt_neg _ (by omega) (by omega)]

/-- The message the deposit command builds for amount input "-5" in the
C8 witness run: the ERC20 amount is `2^64 - 5`. -/
def c8TestMsg : MsgCreateEthereumClaims :=
  { EthereumChainID := "15"
    BridgeContractAddress := NewEthereumAddress "0xc"
    Orchestrator := ⟨"cosmos1orch"⟩
    Claims := [.deposit
      { Nonce := 4
        ERC20Token := NewERC20Token 18446744073709551611 "PEG" (NewEthereumAddress "0xt")
        EthereumSender := NewEthereumAddress "0xs"
        CosmosReceiver := ⟨"cosmos1recv"⟩ }] }

/-- Witness for C8 at amount input "-5". -/
theorem c8_negative_amount_wraps_witness :
    goParseInt (String.mk ['-', '5']) 64 = .ok (-(digitsToNat ['5'] : Int)) ∧
    (SdkMsg.createClaims c8TestMsg ∈ broadcastMsgs
      (CmdSendETHDepositRequest testEnv "15" "0xc" "4" "cosmos1recv"
        (String.mk ['-', '5']) "PEG" "0xt" "0xs").1) ∧
    ∃ nonce receiver,
      parseNonce "4" = .ok nonce ∧
      testEnv.accAddressFromBech32 "cosmos1recv" = .ok receiver ∧
      c8TestMsg.Claims = [.deposit
        { Nonce := nonce
          ERC20Token := NewERC20Token
            ((-(digitsToNat ['5'] : Int) + 2 ^ 64).toNat) "PEG"
            (NewEthereumAddress "0xt")
          EthereumSender := NewEthereumAddress "0xs"
          CosmosReceiver := receiver }] :=
  ⟨(c8_negative_amount_wraps '5' [] (by decide) (by decide) (by decide)).1,
   by decide,
   (c8_negative_amount_wraps '5' [] (by decide) (by decide) (by decide)).2
     testEnv "15" "0xc" "4" "cosmos1recv" "PEG" "0xt" "0xs" c8TestMsg (by decide)⟩
